import Mathlib

/-!
Verification of the layout constraint engine of a photo print-preparation
tool, shallowly embedded from its Rust source (`src/units/length.rs`,
`src/units/size.rs`, `src/units/border.rs`, `src/units/format.rs`,
`src/op/prep.rs`).

Floating-point values (`f32`/`f64`) are modelled by exact rationals `ℚ`;
machine casts `as i32` and `f32::round` are modelled explicitly
(`asI32`, `rustRound`).  A Rust function that can panic is modelled as an
`Option`-valued function, `none` meaning a panic; a fallible function
returns `Except` inside, so `Option (Except ε α)` distinguishes
panic / error / success.  Strings are processed over their character
lists (the sources only handle ASCII option strings).
-/

namespace PrintPrep

/-- `f32::round`: round half away from zero. -/
def rustRound (q : ℚ) : ℤ :=
  if 0 ≤ q then ⌊q + 1 / 2⌋ else -⌊-q + 1 / 2⌋

/-- A float-to-`i32` cast (`as i32`): truncation toward zero.
(Saturation at the `i32` bounds is not modelled; all values in the
claims are far from them.) -/
def asI32 (q : ℚ) : ℤ :=
  if 0 ≤ q then ⌊q⌋ else ⌈q⌉

/-- `LengthUnit` from `src/units/length.rs`: the source has exactly the
three units `Px`, `Cm`, `Inch`. -/
inductive LengthUnit where
  | px
  | cm
  | inch
deriving DecidableEq, Repr

/-- `LengthUnit::needs_dpi` from `src/units/length.rs`. -/
def LengthUnit.needs_dpi : LengthUnit → Bool
  | .px => false
  | _ => true

/-- `Length` from `src/units/length.rs`: a scalar value tagged with a unit.
The `f32` value is modelled as an exact rational. -/
structure Length where
  value : ℚ
  unit : LengthUnit
deriving DecidableEq, Repr

/-- `Length::cm`. -/
def Length.cmL (value : ℚ) : Length := ⟨value, .cm⟩

/-- `Length::inch`. -/
def Length.inchL (value : ℚ) : Length := ⟨value, .inch⟩

/-- `Length::px` (takes an `i32`, stored as a float). -/
def Length.pxL (value : ℤ) : Length := ⟨(value : ℚ), .px⟩

/-- `INCH_TO_CM = 2.54` from `src/units/length.rs`. -/
def INCH_TO_CM : ℚ := 254 / 100

/-- `CM_TO_INCH = 1.0 / 2.54` from `src/units/length.rs`. -/
def CM_TO_INCH : ℚ := 100 / 254

/-- `Length::to` from `src/units/length.rs`: unit conversion.  Conversions
to `Px` round to the nearest integer (`.round() as i32`); the other
conversions are plain multiplications. -/
def Length.to (l : Length) (unit : LengthUnit) (dpi : ℚ) : Length :=
  match l.unit, unit with
  | .cm, .cm => Length.cmL l.value
  | .cm, .inch => Length.inchL (l.value * CM_TO_INCH)
  | .cm, .px => Length.pxL (rustRound (l.value * CM_TO_INCH * dpi))
  | .inch, .cm => Length.cmL (l.value * INCH_TO_CM)
  | .inch, .inch => Length.inchL l.value
  | .inch, .px => Length.pxL (rustRound (l.value * dpi))
  | .px, .cm => Length.cmL (l.value * INCH_TO_CM / dpi)
  | .px, .inch => Length.inchL (l.value / dpi)
  | .px, .px => Length.pxL (rustRound l.value)

/-- `Length::needs_dpi`. -/
def Length.needs_dpi (l : Length) : Bool := l.unit.needs_dpi

/-! ### String parsing

`str::split` over a separator character, on character lists. -/

def splitOnChar (sep : Char) : List Char → List (List Char)
  | [] => [[]]
  | c :: rest =>
    let r := splitOnChar sep rest
    if c = sep then
      [] :: r
    else
      match r with
      | h :: t => (c :: h) :: t
      | [] => [[c]]

/-- Leading sign of a numeric literal: returns (negative?, remainder). -/
def takeSign : List Char → Bool × List Char
  | '-' :: rest => (true, rest)
  | '+' :: rest => (false, rest)
  | cs => (false, cs)

/-- Numeric value of a digit string (caller checks the digits). -/
def digitsVal (cs : List Char) : ℕ :=
  cs.foldl (fun a c => 10 * a + (c.toNat - 48)) 0

/-- Splits a character list at the first occurrence of a character
satisfying `p`; `none` in the second component when `p` never holds. -/
def breakOnChar (p : Char → Bool) : List Char → List Char × Option (List Char)
  | [] => ([], none)
  | c :: rest =>
    if p c then
      ([], some rest)
    else
      let r := breakOnChar p rest
      (c :: r.1, r.2)

/-- The mantissa of a float literal: digits with at most one decimal
point and at least one digit overall. -/
def parseMantissa (cs : List Char) : Option ℚ :=
  let ip := (breakOnChar (fun c => c = '.') cs).1
  match (breakOnChar (fun c => c = '.') cs).2 with
  | none =>
    if ip ≠ [] ∧ ip.all Char.isDigit then some ((digitsVal ip : ℚ)) else none
  | some fp =>
    if (ip ≠ [] ∨ fp ≠ []) ∧ ip.all Char.isDigit ∧ fp.all Char.isDigit then
      some ((digitsVal (ip ++ fp) : ℚ) / (10 : ℚ) ^ fp.length)
    else none

/-- A signed decimal exponent (`e`/`E` part of a float literal). -/
def parseExponent (cs : List Char) : Option ℤ :=
  let s := takeSign cs
  if s.2 ≠ [] ∧ s.2.all Char.isDigit then
    some (if s.1 then -(digitsVal s.2 : ℤ) else (digitsVal s.2 : ℤ))
  else none

/-- Model of Rust `str::parse::<f32>` on decimal literals: optional sign,
digits with at most one decimal point, optional `e`/`E` exponent.
(The special values `inf`/`NaN` accepted by Rust are not modelled; they
play no role in the layout engine.)  The float value is represented
exactly as a rational. -/
def parseNum (s : String) : Option ℚ :=
  let sg := takeSign s.data
  let mant := breakOnChar (fun c => c = 'e' ∨ c = 'E') sg.2
  match parseMantissa mant.1 with
  | none => none
  | some m =>
    let v :=
      match mant.2 with
      | none => some m
      | some ex =>
        match parseExponent ex with
        | none => none
        | some k =>
          some (if 0 ≤ k then m * (10 : ℚ) ^ k.toNat else m / (10 : ℚ) ^ (-k).toNat)
    v.map fun q => if sg.1 then -q else q

/-- `LengthUnit::from_str` from `src/units/length.rs`: only `px`, `cm`
and `in` are recognized. -/
def LengthUnit.fromStr (s : String) : Except String LengthUnit :=
  if s = "px" then .ok .px
  else if s = "cm" then .ok .cm
  else if s = "in" then .ok .inch
  else .error ("`" ++ s ++ "` is not a valid length unit. Must be one of `(px|cm|in)`")

/-- The error produced when the numeric portion of a length is malformed
(Rust float parse error). -/
def floatErr : String := "invalid float literal"

/-- The UTF-8 byte length of a character list (Rust's `str::len`). -/
def utf8Len : List Char → ℕ
  | [] => 0
  | c :: rest => c.utf8Size + utf8Len rest

/-- Rust byte slicing `(&s[..n], &s[n..])` on a character list: splits
after `n` UTF-8 bytes.  Returns `none` — a panic — when `n` exceeds the
byte length ("byte index out of bounds") or falls strictly inside a
multi-byte character ("not a char boundary"). -/
def splitAtByte (n : ℕ) : List Char → Option (List Char × List Char)
  | [] => if n = 0 then some ([], []) else none
  | c :: rest =>
    if n = 0 then some ([], c :: rest)
    else if n < c.utf8Size then none
    else (splitAtByte (n - c.utf8Size) rest).map (fun p => (c :: p.1, p.2))

/-- `Length::from_str` from `src/units/length.rs`, on a character list.
The source computes `let pos = s.len() - 2;` over *bytes* and slices
`&s[pos..]` / `&s[..pos]`: an input shorter than two bytes panics (the
subtraction underflows, putting the slice start out of range), and an
input whose byte length minus 2 is not a character boundary (e.g. a
trailing three-byte character) panics on the slice — both modelled as
`none` via `splitAtByte`.  If the suffix is alphabetic it must parse as
a unit and the prefix is the numeric portion, otherwise the unit
defaults to `Px` and the whole string is the numeric portion.
(`char::is_alphabetic` is modelled by `Char.isAlpha`; they agree on
single-byte characters, the only ones the theorems instantiate.) -/
def Length.fromStrL (cs : List Char) : Option (Except String Length) :=
  if utf8Len cs < 2 then none
  else
    match splitAtByte (utf8Len cs - 2) cs with
    | none => none
    | some (pre, unitStr) =>
      if unitStr.all Char.isAlpha then
        match LengthUnit.fromStr (String.mk unitStr) with
        | .error e => some (.error e)
        | .ok u =>
          match parseNum (String.mk pre) with
          | some v => some (.ok ⟨v, u⟩)
          | none => some (.error floatErr)
      else
        match parseNum (String.mk cs) with
        | some v => some (.ok ⟨v, .px⟩)
        | none => some (.error floatErr)

/-- `Length::from_str` on a string. -/
def Length.fromStr (s : String) : Option (Except String Length) :=
  Length.fromStrL s.data

/-! ### Size, FixSize, Borders (`src/units/size.rs`, `src/units/border.rs`) -/

/-- `Size` from `src/units/size.rs`: a pair of optional lengths. -/
structure Size where
  width : Option Length
  height : Option Length
deriving DecidableEq, Repr

/-- `FixSize` from `src/units/size.rs`: both dimensions mandatory. -/
structure FixSize where
  width : Length
  height : Length
deriving DecidableEq, Repr

/-- `FixSize::px`. -/
def FixSize.px (width height : ℤ) : FixSize :=
  ⟨Length.pxL width, Length.pxL height⟩

/-- `FixSize::to`. -/
def FixSize.to (f : FixSize) (unit : LengthUnit) (dpi : ℚ) : FixSize :=
  ⟨f.width.to unit dpi, f.height.to unit dpi⟩

/-- `FixSize::rotate_90`: swaps width and height. -/
def FixSize.rotate_90 (f : FixSize) : FixSize :=
  ⟨f.height, f.width⟩

/-- `Size::to`. -/
def Size.to (s : Size) (unit : LengthUnit) (dpi : ℚ) : Size :=
  ⟨s.width.map (fun w => w.to unit dpi), s.height.map (fun h => h.to unit dpi)⟩

/-- `Size::rotate_90`. -/
def Size.rotate_90 (s : Size) : Size :=
  ⟨s.height, s.width⟩

/-- `Borders` from `src/units/border.rs`: four lengths, clockwise from
the top. -/
structure Borders where
  top : Length
  right : Length
  bottom : Length
  left : Length
deriving DecidableEq, Repr

/-- `Borders::each`. -/
def Borders.each (top right bottom left : Length) : Borders :=
  ⟨top, right, bottom, left⟩

/-- `Borders::px`. -/
def Borders.px (top right bottom left : ℤ) : Borders :=
  ⟨Length.pxL top, Length.pxL right, Length.pxL bottom, Length.pxL left⟩

/-- `Borders::all`. -/
def Borders.all (border : Length) : Borders :=
  ⟨border, border, border, border⟩

/-- `Borders::to`. -/
def Borders.to (b : Borders) (unit : LengthUnit) (dpi : ℚ) : Borders :=
  ⟨b.top.to unit dpi, b.right.to unit dpi, b.bottom.to unit dpi, b.left.to unit dpi⟩

/-- `Borders::to_px`. -/
def Borders.toPx (b : Borders) (dpi : ℚ) : Borders :=
  b.to .px dpi

/-- `FixSize::to_px` (as used by `prep.rs` on the option values). -/
def FixSize.toPx (f : FixSize) (dpi : ℚ) : FixSize :=
  f.to .px dpi

/-- `Borders::rotate_90`: cyclic permutation of the four sides
(top from left, right from top, bottom from right, left from bottom). -/
def Borders.rotate_90 (b : Borders) : Borders :=
  Borders.each b.left b.top b.right b.bottom

/-- `Borders::rotate_270`. -/
def Borders.rotate_270 (b : Borders) : Borders :=
  Borders.each b.right b.bottom b.left b.top

/-- `Size::from_str` from `src/units/size.rs`: exactly two
slash-separated parts, `.` standing for an absent dimension, and at
least one dimension present.  `none` = panic propagated from
`Length::from_str`. -/
def Size.fromStr (s : String) : Option (Except String Size) :=
  match splitOnChar '/' s.data with
  | [p0, p1] =>
    let pw : Option (Except String (Option Length)) :=
      if p0 = ['.'] then some (.ok none)
      else (Length.fromStrL p0).map (fun r => r.map some)
    match pw with
    | none => none
    | some (.error e) => some (.error e)
    | some (.ok w) =>
      let ph : Option (Except String (Option Length)) :=
        if p1 = ['.'] then some (.ok none)
        else (Length.fromStrL p1).map (fun r => r.map some)
      match ph with
      | none => none
      | some (.error e) => some (.error e)
      | some (.ok h) =>
        if w = none ∧ h = none then
          some (.error ("Unable to parse size from " ++ s ++
            ", at least one of width or height must be given"))
        else
          some (.ok ⟨w, h⟩)
  | _ => some (.error ("Unexpected size format in " ++ s ++ ", expects `width/height`"))

/-! ### Display (needed for the named-format lookup)

`Size`'s `Display` (`src/units/size.rs`) renders `"{width}/{height}"`
with `.` for an absent dimension, delegating to `Length`'s `Display`. -/

/-- Decimal digit characters of a natural number. -/
def natChars (n : ℕ) : List Char :=
  Nat.toDigits 10 n

/-- Decimal rendering of a rational whose denominator divides a power of
ten: the scaled integer digits with a decimal point inserted. -/
def decChars (m : ℕ) (k : ℕ) : List Char :=
  let ds := natChars m
  let ds := if ds.length ≤ k then List.replicate (k + 1 - ds.length) '0' ++ ds else ds
  ds.take (ds.length - k) ++ '.' :: ds.drop (ds.length - k)

/-- Modelled from the spec: the `Display` implementation for `Length` is
not under `src/` (the `Size`/`FixSize` `Display` impls call it); per the
spec, `Display` is unit-aware (`"5cm"`, `"1024px"`), rendering the
numeric value the way Rust renders floats (integral values without a
decimal point, e.g. `15.0` as `"15"`, fractional values with their
shortest decimal expansion, e.g. `"3.5"`).  Rationals without a finite
decimal expansion (unreachable from parsed floats) fall back to a
`num/den` rendering, which never collides with a format-table key. -/
def ratChars (q : ℚ) : List Char :=
  let sign : List Char := if q < 0 then ['-'] else []
  let a : ℚ := |q|
  if a.den = 1 then
    sign ++ natChars a.num.toNat
  else
    match (List.range 40).find? (fun i => (a * (10 : ℚ) ^ i).den = 1) with
    | some k => sign ++ decChars (a * (10 : ℚ) ^ k).num.toNat k
    | none => sign ++ natChars a.num.toNat ++ '/' :: natChars a.den

/-- Modelled from the spec: `Length`'s `Display` (value then unit
suffix). -/
def Length.display (l : Length) : String :=
  String.mk (ratChars l.value ++
    (match l.unit with
     | .px => ['p', 'x']
     | .cm => ['c', 'm']
     | .inch => ['i', 'n']))

/-- `Size`'s `Display` from `src/units/size.rs`. -/
def Size.display (s : Size) : String :=
  (match s.width with | some w => w.display | none => ".") ++ "/" ++
    (match s.height with | some h => h.display | none => ".")

/-- `FixSize`'s `Display` from `src/units/size.rs`. -/
def FixSize.display (f : FixSize) : String :=
  f.width.display ++ "/" ++ f.height.display

/-! ### Named print-format table (`src/units/format.rs`) -/

/-- `create_formats` from `src/units/format.rs`: the named print-format
table mapping metric sizes to their exact imperial equivalents. -/
def create_formats : List (String × String) :=
  [("13cm/9cm", "5in/3.5in"), ("9cm/13cm", "3.5in/5in"),
   ("15cm/10cm", "6in/4in"), ("10cm/15cm", "4in/6in"),
   ("18cm/13cm", "7in/5in"), ("13cm/18cm", "5in/7in"),
   ("21cm/15cm", "8.5in/6in"), ("15cm/21cm", "6in/8.5in"),
   ("24cm/18cm", "9.5in/7in"), ("18cm/24cm", "7in/9.5in")]

/-- `FORMATS.get` on the table. -/
def formatsGet (key : String) : Option String :=
  (create_formats.find? (fun kv => kv.1 = key)).map (fun kv => kv.2)

/-- `to_print_format` from `src/units/format.rs`.  Fails when a
dimension is missing; otherwise looks the exact display string up in the
table, parsing the replacement on a hit (`.parse().unwrap()`: a parse
failure there would panic, modelled as `none`), and returning the input
unchanged on a miss. -/
def to_print_format (size : Size) : Option (Except String Size) :=
  let str := size.display
  if size.width = none ∨ size.height = none then
    some (.error ("Unable to determine print size. Missing dimension in size " ++ str))
  else
    match formatsGet str with
    | some rep =>
      match Size.fromStr rep with
      | some (.ok r) => some (.ok r)
      | _ => none
    | none => some (.ok size)

/-! ### The layout solver (`src/op/prep.rs`)

Only the fields of `PrepareImage` that the geometry computation reads
are modelled; the drawing-related fields (colors, cut marks, fonts, …)
do not influence the layout. -/

/-- The solver-relevant configuration of `PrepareImage`
(`src/op/prep.rs`). -/
structure PrepareImage where
  format : FixSize
  dpi : Option ℚ
  image_size : Option FixSize
  framed_size : Option FixSize
  padding : Option Borders
  margins : Option Borders
  no_rotation : Bool
deriving DecidableEq, Repr

/-- The number of supplied constraint options, as counted by the loops
in `PrepareImage::check`. -/
def PrepareImage.constraint_count (p : PrepareImage) : ℕ :=
  ((if p.image_size.isSome then 1 else 0) + (if p.framed_size.isSome then 1 else 0)) +
    ((if p.padding.isSome then 1 else 0) + (if p.margins.isSome then 1 else 0))

/-- `PrepareImage::check` from `src/op/prep.rs` (lines 391–423): exactly
two of the four constraint options must be supplied, and `framed-size`
with `margins` is rejected. -/
def PrepareImage.check (p : PrepareImage) : Except String Unit :=
  if p.constraint_count ≠ 2 then
    .error ("Over- or under-determined print format. " ++
      "Exactly two of the following options must be given: " ++
      "`image-size`, `framed-size`, `padding`, `margins`. " ++
      "The only invalid combination is `framed-size` and `margins`")
  else if p.framed_size.isSome ∧ p.margins.isSome then
    .error ("Invalid combination of print format options. " ++
      "Exactly two of the following options must be given: " ++
      "`image-size`, `framed-size`, `padding`, `margins`. " ++
      "The only invalid combination is `framed-size` and `margins`")
  else
    .ok ()

/-- `PrepareImage::rotate_size`: swaps the dimensions when rotation is
active. -/
def rotate_size (size : FixSize) (rotate : Bool) : FixSize :=
  if rotate then size.rotate_90 else size

/-- `PrepareImage::rotate_borders` from `src/op/prep.rs` (lines
702–704): the rotation flag is ignored and the borders are returned
unchanged. -/
def rotate_borders (borders : Borders) (_rotate : Bool) : Borders :=
  borders

/-- First block of `PrepareImage::calc_sizes`: the maximal size of image
plus padding ("framed").  `none` models the panic of the
`unwrap()` calls on `image_size`/`padding` when they are absent. -/
def PrepareImage.framed_max (p : PrepareImage) (width height : ℤ) (rotate : Bool)
    (dpi : ℚ) : Option FixSize :=
  match p.framed_size with
  | some framed => some (rotate_size (framed.toPx dpi) rotate)
  | none =>
    match p.margins with
    | some margins =>
      let mar := rotate_borders (margins.toPx dpi) rotate
      some (FixSize.px (width - asI32 mar.right.value - asI32 mar.left.value)
        (height - asI32 mar.top.value - asI32 mar.bottom.value))
    | none =>
      match p.image_size, p.padding with
      | some image_size, some padding =>
        let img := rotate_size (image_size.toPx dpi) rotate
        let pad := rotate_borders (padding.toPx dpi) rotate
        some (FixSize.px
          (asI32 img.width.value + asI32 pad.right.value + asI32 pad.left.value)
          (asI32 img.height.value + asI32 pad.top.value + asI32 pad.bottom.value))
      | _, _ => none

/-- Second block of `PrepareImage::calc_sizes` (lines 622–635): the
maximal size of the image without padding.  NOTE: the source tests
`self.framed_size` here (binding it as `image`), so when `framed-size`
is supplied the full framed size is used as the maximal image rectangle;
otherwise `padding` is unwrapped (a panic — `none` — when absent). -/
def PrepareImage.image_max (p : PrepareImage) (framed : FixSize) (rotate : Bool)
    (dpi : ℚ) : Option FixSize :=
  match p.framed_size with
  | some image => some (rotate_size (image.toPx dpi) rotate)
  | none =>
    match p.padding with
    | some padding =>
      let pad := rotate_borders (padding.toPx dpi) rotate
      some (FixSize.px
        (asI32 framed.width.value - asI32 pad.right.value - asI32 pad.left.value)
        (asI32 framed.height.value - asI32 pad.top.value - asI32 pad.bottom.value))
    | none => none

/-- Third block of `PrepareImage::calc_sizes` (lines 636–643): the
padding — the supplied one when given, otherwise the per-axis complement
`(framed − image) / 2` on each side. -/
def PrepareImage.padding_calc (p : PrepareImage) (framed image : FixSize)
    (rotate : Bool) (dpi : ℚ) : Borders :=
  match p.padding with
  | some pad => rotate_borders (pad.toPx dpi) rotate
  | none =>
    let hor := Int.tdiv (asI32 framed.width.value - asI32 image.width.value) 2
    let ver := Int.tdiv (asI32 framed.height.value - asI32 image.height.value) 2
    Borders.px ver hor ver hor

/-- Aspect-ratio fit of `PrepareImage::calc_sizes` (lines 645–662):
contain-fit of the original photo (pixel size `img_width × img_height`)
into the maximal image rectangle, preserving the photo's aspect
ratio. -/
def resize_aspect (img_width img_height : ℤ) (image : FixSize) : ℤ × ℤ :=
  let orig_aspect : ℚ := (img_width : ℚ) / (img_height : ℚ)
  let out_aspect : ℚ := image.width.value / image.height.value
  if out_aspect ≤ orig_aspect then
    (rustRound image.width.value, rustRound (image.height.value * out_aspect / orig_aspect))
  else
    (rustRound (image.width.value * orig_aspect / out_aspect), rustRound image.height.value)

/-- Margins block of `PrepareImage::calc_sizes` (lines 673–690): when
margins were supplied, their per-axis skew is preserved around the
centered mean; otherwise the margins are symmetric. -/
def PrepareImage.margins_calc (p : PrepareImage) (width height : ℤ) (framed : FixSize)
    (rotate : Bool) (dpi : ℚ) : Borders :=
  match p.margins with
  | some mar_orig =>
    let mar := rotate_borders (mar_orig.toPx dpi) rotate
    let diff_hor := Int.tdiv (asI32 mar.right.value - asI32 mar.left.value) 2
    let diff_ver := Int.tdiv (asI32 mar.top.value - asI32 mar.bottom.value) 2
    let hor := Int.tdiv (width - asI32 framed.width.value) 2
    let ver := Int.tdiv (height - asI32 framed.height.value) 2
    Borders.px (ver + diff_ver) (hor + diff_hor) (ver - diff_ver) (hor - diff_hor)
  | none =>
    let hor := Int.tdiv (width - asI32 framed.width.value) 2
    let ver := Int.tdiv (height - asI32 framed.height.value) 2
    Borders.px ver hor ver hor

/-- `PrepareImage::calc_sizes` from `src/op/prep.rs` (lines 589–693):
returns `(image, framed, padding, margins)`; `none` models a panic of
one of its `unwrap()` calls. -/
def PrepareImage.calc_sizes (p : PrepareImage) (width height : ℤ)
    (img_width img_height : ℤ) (rotate : Bool) (dpi : ℚ) :
    Option (FixSize × FixSize × Borders × Borders) :=
  match p.framed_max width height rotate dpi with
  | none => none
  | some framed =>
    match p.image_max framed rotate dpi with
    | none => none
    | some image =>
      let padding := p.padding_calc framed image rotate dpi
      let sc := resize_aspect img_width img_height image
      let image := FixSize.px sc.1 sc.2
      let framed := FixSize.px
        (sc.1 + asI32 padding.left.value + asI32 padding.right.value)
        (sc.2 + asI32 padding.top.value + asI32 padding.bottom.value)
      let margins := p.margins_calc width height framed rotate dpi
      some (image, framed, padding, margins)

/-- The geometry part of `PrepareImage::process_image` (lines 163–190):
validation, format resolution and pixel conversion, the rotation
decision, and `calc_sizes`.  Returns the (possibly swapped) canvas
size, the rotation flag and the solved layout.  The outer `none` models
a panic; `Except` carries the validation / format errors. -/
def PrepareImage.process_layout (p : PrepareImage) (img_width img_height : ℤ) :
    Option (Except String (ℤ × ℤ × Bool × (FixSize × FixSize × Borders × Borders))) :=
  match p.check with
  | .error e => some (.error e)
  | .ok _ =>
    let dpi := p.dpi.getD 300
    match to_print_format ⟨some p.format.width, some p.format.height⟩ with
    | none => none
    | some (.error e) => some (.error e)
    | some (.ok fsz) =>
      match (fsz.to .px dpi).width, (fsz.to .px dpi).height with
      | some w, some h =>
        let width := rustRound w.value
        let height := rustRound h.value
        let in_is_portrait : Bool := img_height > img_width
        let out_is_portrait : Bool := height > width
        let rotate := !(p.no_rotation || (in_is_portrait == out_is_portrait))
        let wh := if rotate then (height, width) else (width, height)
        (p.calc_sizes wh.1 wh.2 img_width img_height rotate dpi).map
          (fun r => .ok (wh.1, wh.2, rotate, r))
      | _, _ => none

deriving instance DecidableEq for Except

/-- The configuration of the concrete end-to-end scenario: format
`15cm/10cm`, default DPI (300), `image-size 1200px/800px`,
`padding 20px` (all four sides, per the `Borders` replication rule). -/
def scenarioConfig : PrepareImage :=
  ⟨⟨⟨15, .cm⟩, ⟨10, .cm⟩⟩, none, some (FixSize.px 1200 800), none,
    some (Borders.px 20 20 20 20), none, false⟩

/-- A configuration supplying `image-size` and `margins` (and neither
`framed-size` nor `padding`). -/
def imageSizeMarginsConfig : PrepareImage :=
  ⟨⟨⟨15, .cm⟩, ⟨10, .cm⟩⟩, none, some (FixSize.px 1200 800), none, none,
    some (Borders.px 10 10 10 10), false⟩

/-- A configuration supplying both `image-size` and `framed-size` (and
neither `padding` nor `margins`). -/
def bothSizesConfig : PrepareImage :=
  ⟨⟨⟨15, .cm⟩, ⟨10, .cm⟩⟩, none, some (FixSize.px 1200 800),
    some (FixSize.px 1300 900), none, none, false⟩

/-- A configuration supplying `framed-size 100px/100px` and
`padding 10px`. -/
def framedPaddingConfig : PrepareImage :=
  ⟨⟨⟨15, .cm⟩, ⟨10, .cm⟩⟩, none, none, some (FixSize.px 100 100),
    some (Borders.px 10 10 10 10), none, false⟩

/-- A configuration supplying `image-size 100px/50px` and asymmetric
`padding 1px/2px/3px/4px`. -/
def asymPaddingConfig : PrepareImage :=
  ⟨⟨⟨15, .cm⟩, ⟨10, .cm⟩⟩, none, some (FixSize.px 100 50), none,
    some (Borders.px 1 2 3 4), none, false⟩

/-! ### Arithmetic helper lemmas -/

theorem asI32_intCast (k : ℤ) : asI32 (k : ℚ) = k := by
  unfold asI32
  split
  · exact Int.floor_intCast k
  · exact Int.ceil_intCast k

theorem rustRound_intCast (k : ℤ) : rustRound (k : ℚ) = k := by
  unfold rustRound
  split
  · rw [show ((k : ℚ) + 1 / 2) = (1 / 2 : ℚ) + (k : ℤ) by ring,
      Int.floor_add_int, show ⌊(1 / 2 : ℚ)⌋ = 0 by norm_num, zero_add]
  · rw [show (-(k : ℚ) + 1 / 2) = (1 / 2 : ℚ) + ((-k : ℤ) : ℚ) by push_cast; ring,
      Int.floor_add_int, show ⌊(1 / 2 : ℚ)⌋ = 0 by norm_num, zero_add, neg_neg]

theorem abs_rustRound_sub_le (q : ℚ) : |((rustRound q : ℤ) : ℚ) - q| ≤ 1 / 2 := by
  unfold rustRound
  split
  · have h1 : ((⌊q + 1 / 2⌋ : ℤ) : ℚ) ≤ q + 1 / 2 := Int.floor_le _
    have h2 : q + 1 / 2 < ((⌊q + 1 / 2⌋ : ℤ) : ℚ) + 1 := Int.lt_floor_add_one _
    rw [abs_le]
    constructor <;> linarith
  · have h1 : ((⌊-q + 1 / 2⌋ : ℤ) : ℚ) ≤ -q + 1 / 2 := Int.floor_le _
    have h2 : -q + 1 / 2 < ((⌊-q + 1 / 2⌋ : ℤ) : ℚ) + 1 := Int.lt_floor_add_one _
    rw [abs_le]
    push_cast
    constructor <;> linarith

theorem rustRound_le_int (q : ℚ) (n : ℤ) (h : q ≤ (n : ℚ)) : rustRound q ≤ n := by
  unfold rustRound
  split
  · have h1 : ⌊q + 1 / 2⌋ ≤ ⌊(n : ℚ) + 1 / 2⌋ := Int.floor_le_floor (by linarith)
    rwa [show ((n : ℚ) + 1 / 2) = (1 / 2 : ℚ) + (n : ℤ) by ring,
      Int.floor_add_int, show ⌊(1 / 2 : ℚ)⌋ = 0 by norm_num, zero_add] at h1
  · have h1 : ((-n : ℤ) : ℚ) ≤ -q + 1 / 2 := by push_cast; linarith
    have h2 := Int.le_floor.mpr h1
    omega

theorem rustRound_nonneg (q : ℚ) (h : 0 ≤ q) : 0 ≤ rustRound q := by
  unfold rustRound
  rw [if_pos h]
  exact Int.le_floor.mpr (by push_cast; linarith)

theorem two_mul_tdiv_two_bounds (x : ℤ) : x - 1 ≤ 2 * Int.tdiv x 2 ∧ 2 * Int.tdiv x 2 ≤ x + 1 := by
  rcases le_or_lt 0 x with h | h
  · rw [Int.tdiv_eq_ediv h (by norm_num)]
    omega
  · have h2 : Int.tdiv x 2 = -Int.tdiv (-x) 2 := by
      conv_lhs => rw [show x = -(-x) by ring]
      rw [Int.neg_tdiv]
    rw [h2, Int.tdiv_eq_ediv (by omega) (by norm_num)]
    omega

theorem utf8Len_append (xs ys : List Char) :
    utf8Len (xs ++ ys) = utf8Len xs + utf8Len ys := by
  induction xs with
  | nil => simp [utf8Len]
  | cons c rest ih =>
    show c.utf8Size + utf8Len (rest ++ ys) = c.utf8Size + utf8Len rest + utf8Len ys
    rw [ih]
    omega

/-- Slicing two bytes before the end of a string that ends in two
single-byte characters succeeds and splits off exactly those two
characters. -/
theorem splitAtByte_at_last_two (front : List Char) (c1 c2 : Char)
    (h1 : c1.utf8Size = 1) (h2 : c2.utf8Size = 1) :
    splitAtByte (utf8Len (front ++ [c1, c2]) - 2) (front ++ [c1, c2]) =
      some (front, [c1, c2]) := by
  induction front with
  | nil =>
    have hl : utf8Len ([] ++ [c1, c2]) = 2 := by
      simp [utf8Len, h1, h2]
    rw [hl]
    rfl
  | cons c rest ih =>
    have hpos : 0 < c.utf8Size := c.utf8Size_pos
    have hge : 2 ≤ utf8Len (rest ++ [c1, c2]) := by
      rw [utf8Len_append]
      simp [utf8Len, h1, h2]
    have hlen : utf8Len ((c :: rest) ++ [c1, c2]) =
        c.utf8Size + utf8Len (rest ++ [c1, c2]) := by
      simp [utf8Len]
    rw [hlen, show (c :: rest) ++ [c1, c2] = c :: (rest ++ [c1, c2]) from rfl,
      splitAtByte]
    rw [if_neg (by omega), if_neg (by omega),
      show c.utf8Size + utf8Len (rest ++ [c1, c2]) - 2 - c.utf8Size =
        utf8Len (rest ++ [c1, c2]) - 2 by omega, ih]
    rfl

/-- A `Length` converted to pixels always carries an integer value. -/
theorem length_to_px_int (l : Length) (dpi : ℚ) : ∃ k : ℤ, l.to .px dpi = Length.pxL k := by
  unfold Length.to
  cases h : l.unit <;> exact ⟨_, rfl⟩

/-- `Borders` converted to pixels are four integer-valued lengths. -/
theorem borders_toPx_int (b : Borders) (dpi : ℚ) :
    ∃ t r bo l : ℤ, b.toPx dpi = Borders.px t r bo l := by
  obtain ⟨t, ht⟩ := length_to_px_int b.top dpi
  obtain ⟨r, hr⟩ := length_to_px_int b.right dpi
  obtain ⟨bo, hbo⟩ := length_to_px_int b.bottom dpi
  obtain ⟨l, hl⟩ := length_to_px_int b.left dpi
  exact ⟨t, r, bo, l, by unfold Borders.toPx Borders.to Borders.px; rw [ht, hr, hbo, hl]⟩

/-- A `FixSize` converted to pixels has two integer-valued lengths. -/
theorem fixSize_toPx_int (f : FixSize) (dpi : ℚ) :
    ∃ w h : ℤ, f.toPx dpi = FixSize.px w h := by
  obtain ⟨w, hw⟩ := length_to_px_int f.width dpi
  obtain ⟨h, hh⟩ := length_to_px_int f.height dpi
  exact ⟨w, h, by unfold FixSize.toPx FixSize.to FixSize.px; rw [hw, hh]⟩

/-- The padding computed by `padding_calc` is always integer-valued. -/
theorem padding_calc_int (p : PrepareImage) (framed image : FixSize) (rotate : Bool)
    (dpi : ℚ) : ∃ t r b l : ℤ,
    p.padding_calc framed image rotate dpi = Borders.px t r b l := by
  unfold PrepareImage.padding_calc
  cases hp : p.padding with
  | some pad =>
    obtain ⟨t, r, bo, l, h⟩ := borders_toPx_int pad dpi
    exact ⟨t, r, bo, l, h⟩
  | none => exact ⟨_, _, _, _, rfl⟩

/-- The two opposite margins on an axis always sum to twice the
truncated half-gap between the canvas and the framed size: the skew
terms cancel. -/
theorem margins_calc_sums (p : PrepareImage) (width height : ℤ) (framed : FixSize)
    (rotate : Bool) (dpi : ℚ) :
    (p.margins_calc width height framed rotate dpi).left.value +
        (p.margins_calc width height framed rotate dpi).right.value =
      ((2 * Int.tdiv (width - asI32 framed.width.value) 2 : ℤ) : ℚ) ∧
    (p.margins_calc width height framed rotate dpi).top.value +
        (p.margins_calc width height framed rotate dpi).bottom.value =
      ((2 * Int.tdiv (height - asI32 framed.height.value) 2 : ℤ) : ℚ) := by
  unfold PrepareImage.margins_calc
  cases hm : p.margins with
  | some mar_orig =>
    constructor <;> simp only [Borders.px, Length.pxL] <;> push_cast <;> ring
  | none =>
    constructor <;> simp only [Borders.px, Length.pxL] <;> push_cast <;> ring

/-! ### Claim C1: constraint-arity validation -/

/-- Claim C1 (amended): `PrepareImage::check` accepts a configuration
if and only if exactly two of the four options `image-size`,
`framed-size`, `padding`, `margins` are supplied and the supplied pair
is not `framed-size` with `margins`.  In particular `image-size` with
`padding` succeeds and `framed-size` with `margins` fails — but the
bracket structure claimed by the spec is not enforced: `image-size`
together with `framed-size` (and likewise `padding` together with
`margins`) is accepted. -/
theorem check_ok_iff_two_not_framed_margins (p : PrepareImage) :
    p.check = .ok () ↔
      p.constraint_count = 2 ∧ ¬(p.framed_size.isSome ∧ p.margins.isSome) := by
  unfold PrepareImage.check
  split_ifs with h1 h2
  · simp only [reduceCtorEq, false_iff]
    intro ⟨hc, _⟩
    exact h1 hc
  · simp only [reduceCtorEq, false_iff]
    intro ⟨_, hn⟩
    exact hn h2
  · simp only [true_iff]
    exact ⟨by omega, h2⟩

/-- Claim C1, counterexample: a configuration supplying both
`image-size` and `framed-size` (the same bracket twice) passes
validation, although the claim requires it to fail. -/
theorem check_accepts_both_sizes : bothSizesConfig.check = .ok () := by
  rfl

/-! ### Claim C2: no failure path after validation -/

/-- Claim C2: the combination `image-size` + `margins` passes
`PrepareImage::check`, but `PrepareImage::calc_sizes` then panics: with
`framed_size` absent it unwraps `self.padding`, which is also absent
(`none` models the panic).  Validation success therefore does not rule
out a later failure, contradicting the claim. -/
theorem calc_sizes_panics_after_check_ok :
    imageSizeMarginsConfig.check = .ok () ∧
      imageSizeMarginsConfig.calc_sizes 1800 1200 4000 3000 false 300 = none := by
  exact ⟨rfl, by with_unfolding_all rfl⟩

/-! ### Claim C10: framed-size with padding -/

/-- Claim C10 (amended): when `framed-size` is supplied, the maximal
photo rectangle used for the contain fit is the supplied framed size
itself (rotated, pixel-converted) — the padding is *not* subtracted
(`calc_sizes` tests `framed_size` where the maximal image rectangle is
computed).  Consequently the solver's output framed size (fitted photo
plus padding) can exceed the supplied framed size. -/
theorem image_max_of_framed_size (p : PrepareImage) (framed : FixSize) (rotate : Bool)
    (dpi : ℚ) (fs : FixSize) (h : p.framed_size = some fs) :
    p.image_max framed rotate dpi = some (rotate_size (fs.toPx dpi) rotate) := by
  unfold PrepareImage.image_max
  rw [h]

/-- Claim C10, witness for the amended theorem: with
`framed-size 100px/100px` supplied, the maximal photo rectangle is the
full `100 × 100` even though `padding 10px` was also supplied. -/
theorem image_max_of_framed_size_witness :
    framedPaddingConfig.image_max (FixSize.px 100 100) false 300 =
      some (rotate_size ((FixSize.px 100 100).toPx 300) false) :=
  image_max_of_framed_size framedPaddingConfig (FixSize.px 100 100) false 300
    (FixSize.px 100 100) rfl

/-- Claim C10, counterexample: for `framed-size 100px/100px`,
`padding 10px` and a square `50 × 50` photo, validation succeeds and the
solver returns a framed size of `120 × 120` — the output framed size
exceeds the supplied framed size (`120 > 100`), so the supplied framed
size is not an upper bound and the fit rectangle was not
`framed − padding`. -/
theorem output_framed_exceeds_supplied :
    framedPaddingConfig.check = .ok () ∧
      framedPaddingConfig.calc_sizes 500 500 50 50 false 300 =
        some (FixSize.px 100 100, FixSize.px 120 120, Borders.px 10 10 10 10,
          Borders.px 190 190 190 190) ∧
      ¬((120 : ℤ) ≤ 100) := by
  refine ⟨rfl, by with_unfolding_all rfl, by decide⟩

/-! ### Claim C5: padding and rotation -/

/-- Claim C5 (amended): `Borders::rotate_90` cyclically permutes the
four sides (top from left, right from top, bottom from right, left from
bottom), but the solver does *not* apply it to the supplied padding:
`rotate_borders` in `prep.rs` ignores its rotation flag, so the padding
is used exactly as supplied (pixel-converted) even when rotation is
active.  When padding is not supplied it is the arithmetic complement,
`(framed − image) / 2` per axis, applied symmetrically to both sides. -/
theorem padding_calc_spec (p : PrepareImage) (framed image : FixSize) (rotate : Bool)
    (dpi : ℚ) :
    (∀ b : Borders, b.rotate_90 = Borders.each b.left b.top b.right b.bottom) ∧
    (∀ pa : Borders, p.padding = some pa →
      p.padding_calc framed image rotate dpi = pa.toPx dpi) ∧
    (p.padding = none →
      p.padding_calc framed image rotate dpi =
        Borders.px (Int.tdiv (asI32 framed.height.value - asI32 image.height.value) 2)
          (Int.tdiv (asI32 framed.width.value - asI32 image.width.value) 2)
          (Int.tdiv (asI32 framed.height.value - asI32 image.height.value) 2)
          (Int.tdiv (asI32 framed.width.value - asI32 image.width.value) 2)) := by
  refine ⟨fun b => rfl, fun pa hpa => ?_, fun hn => ?_⟩
  · unfold PrepareImage.padding_calc
    rw [hpa]
    rfl
  · unfold PrepareImage.padding_calc
    rw [hn]

/-- Claim C5, witness: with supplied padding `1px/2px/3px/4px` and
rotation active, the padding used by the solver is exactly the supplied
one. -/
theorem padding_calc_spec_witness :
    asymPaddingConfig.padding_calc (FixSize.px 56 104) (FixSize.px 50 100) true 300 =
      (Borders.px 1 2 3 4).toPx 300 :=
  (padding_calc_spec asymPaddingConfig (FixSize.px 56 104) (FixSize.px 50 100)
    true 300).2.1 (Borders.px 1 2 3 4) rfl

/-- Claim C5, counterexample: with rotation active (`rotate = true`) and
supplied padding `1px/2px/3px/4px`, the solver's output padding is the
unrotated `1/2/3/4`, which differs from the 90°-rotated `4/1/2/3`
required by the claim. -/
theorem padding_not_rotated :
    asymPaddingConfig.calc_sizes 300 400 200 100 true 300 =
      some (FixSize.px 50 25, FixSize.px 56 29, Borders.px 1 2 3 4,
        Borders.px 185 122 185 122) ∧
      (Borders.px 1 2 3 4).rotate_90 = Borders.px 4 1 2 3 ∧
      Borders.px 1 2 3 4 ≠ Borders.px 4 1 2 3 := by
  refine ⟨by with_unfolding_all rfl, rfl, by with_unfolding_all decide⟩

/-! ### Claim C3: box-model consistency -/

/-- Claim C3: every layout returned by `calc_sizes` satisfies the
box-model identities — the framed size equals the photo size plus the
padding on both sides of each axis, exactly; and the canvas size equals
margins plus framed size per axis within integer rounding (the margins
are computed by a truncated halving, so the sum can fall short of the
canvas size by at most one pixel). -/
theorem calc_sizes_box_consistency (p : PrepareImage)
    (width height img_width img_height : ℤ) (rotate : Bool) (dpi : ℚ)
    (image framed padding margins : _)
    (h : p.calc_sizes width height img_width img_height rotate dpi =
      some (image, framed, padding, margins)) :
    framed.width.value = image.width.value + padding.left.value + padding.right.value ∧
    framed.height.value = image.height.value + padding.top.value + padding.bottom.value ∧
    |(width : ℚ) - (margins.left.value + framed.width.value + margins.right.value)| ≤ 1 ∧
    |(height : ℚ) - (margins.top.value + framed.height.value + margins.bottom.value)| ≤ 1 := by
  unfold PrepareImage.calc_sizes at h
  cases hf : p.framed_max width height rotate dpi with
  | none =>
    rw [hf] at h
    exact absurd h (by simp)
  | some f0 =>
    rw [hf] at h
    dsimp only at h
    cases hi : p.image_max f0 rotate dpi with
    | none =>
      rw [hi] at h
      exact absurd h (by simp)
    | some i0 =>
      rw [hi] at h
      simp only [Option.some.injEq, Prod.mk.injEq] at h
      obtain ⟨himg, hfr, hpad, hmar⟩ := h
      obtain ⟨t, r, b, l, hP⟩ := padding_calc_int p f0 i0 rotate dpi
      subst himg hfr hpad hmar
      rw [hP]
      constructor
      · simp only [FixSize.px, Borders.px, Length.pxL]
        rw [asI32_intCast, asI32_intCast]
        push_cast
        ring
      constructor
      · simp only [FixSize.px, Borders.px, Length.pxL]
        rw [asI32_intCast, asI32_intCast]
        push_cast
        ring
      · set sc := resize_aspect img_width img_height i0 with hsc
        set fw : ℤ := sc.1 + asI32 ((Borders.px t r b l).left.value) +
          asI32 ((Borders.px t r b l).right.value) with hfw
        set fh : ℤ := sc.2 + asI32 ((Borders.px t r b l).top.value) +
          asI32 ((Borders.px t r b l).bottom.value) with hfh
        have hms := margins_calc_sums p width height (FixSize.px fw fh) rotate dpi
        have hwv : (FixSize.px fw fh).width.value = ((fw : ℤ) : ℚ) := rfl
        have hhv : (FixSize.px fw fh).height.value = ((fh : ℤ) : ℚ) := rfl
        have hb1 := two_mul_tdiv_two_bounds (width - fw)
        have hb2 := two_mul_tdiv_two_bounds (height - fh)
        rw [hwv, hhv, asI32_intCast, asI32_intCast] at hms
        constructor
        · have e1 : (p.margins_calc width height (FixSize.px fw fh) rotate dpi).left.value +
              (FixSize.px fw fh).width.value +
              (p.margins_calc width height (FixSize.px fw fh) rotate dpi).right.value =
              ((2 * Int.tdiv (width - fw) 2 + fw : ℤ) : ℚ) := by
            rw [hwv]
            push_cast
            push_cast at hms
            linarith [hms.1]
          rw [e1, show (width : ℚ) - ((2 * Int.tdiv (width - fw) 2 + fw : ℤ) : ℚ) =
            ((width - (2 * Int.tdiv (width - fw) 2 + fw) : ℤ) : ℚ) by push_cast; ring,
            ← Int.cast_abs]
          have : |width - (2 * Int.tdiv (width - fw) 2 + fw)| ≤ 1 := by
            rw [abs_le]
            omega
          exact_mod_cast this
        · have e2 : (p.margins_calc width height (FixSize.px fw fh) rotate dpi).top.value +
              (FixSize.px fw fh).height.value +
              (p.margins_calc width height (FixSize.px fw fh) rotate dpi).bottom.value =
              ((2 * Int.tdiv (height - fh) 2 + fh : ℤ) : ℚ) := by
            rw [hhv]
            push_cast
            push_cast at hms
            linarith [hms.2]
          rw [e2, show (height : ℚ) - ((2 * Int.tdiv (height - fh) 2 + fh : ℤ) : ℚ) =
            ((height - (2 * Int.tdiv (height - fh) 2 + fh) : ℤ) : ℚ) by push_cast; ring,
            ← Int.cast_abs]
          have : |height - (2 * Int.tdiv (height - fh) 2 + fh)| ≤ 1 := by
            rw [abs_le]
            omega
          exact_mod_cast this

/-- Claim C3, witness: the box-model identities at the concrete scenario
layout (canvas `1800 × 1200`, photo `1067 × 800`, framed `1107 × 840`,
padding `20`, margins `346`/`180`). -/
theorem calc_sizes_box_consistency_witness :
    (FixSize.px 1107 840).width.value =
        (FixSize.px 1067 800).width.value + (Borders.px 20 20 20 20).left.value +
          (Borders.px 20 20 20 20).right.value ∧
    (FixSize.px 1107 840).height.value =
        (FixSize.px 1067 800).height.value + (Borders.px 20 20 20 20).top.value +
          (Borders.px 20 20 20 20).bottom.value ∧
    |((1800 : ℤ) : ℚ) - ((Borders.px 180 346 180 346).left.value +
        (FixSize.px 1107 840).width.value + (Borders.px 180 346 180 346).right.value)| ≤ 1 ∧
    |((1200 : ℤ) : ℚ) - ((Borders.px 180 346 180 346).top.value +
        (FixSize.px 1107 840).height.value + (Borders.px 180 346 180 346).bottom.value)| ≤ 1 :=
  calc_sizes_box_consistency scenarioConfig 1800 1200 4000 3000 false 300
    (FixSize.px 1067 800) (FixSize.px 1107 840) (Borders.px 20 20 20 20)
    (Borders.px 180 346 180 346) (by with_unfolding_all rfl)

/-! ### Claim C4: aspect-preserving contain fit -/

/-- Claim C4 (amended): the contain fit of a photo with positive pixel
dimensions into a maximal rectangle with positive integer dimensions
fills the rectangle exactly on the designated axis (the width when the
photo is relatively wider, i.e. photo ratio at least rectangle ratio;
the height when relatively taller), stays inside the rectangle on the
other axis, and realizes the photo's native ratio within rounding (the
scaled axis is within half a pixel of the exact proportional value).
Because of that rounding, the fitted size can equal the rectangle's
extent on *both* axes even when the ratios differ. -/
theorem resize_aspect_contain_fit (img_width img_height w h : ℤ)
    (hiw : 0 < img_width) (hih : 0 < img_height) (hw : 0 < w) (hh : 0 < h) :
    (((w : ℚ) / (h : ℚ) ≤ (img_width : ℚ) / (img_height : ℚ)) →
      (resize_aspect img_width img_height (FixSize.px w h)).1 = w ∧
      0 ≤ (resize_aspect img_width img_height (FixSize.px w h)).2 ∧
      (resize_aspect img_width img_height (FixSize.px w h)).2 ≤ h ∧
      |(((resize_aspect img_width img_height (FixSize.px w h)).2 : ℤ) : ℚ) -
        (w : ℚ) * (img_height : ℚ) / (img_width : ℚ)| ≤ 1 / 2) ∧
    (((img_width : ℚ) / (img_height : ℚ) < (w : ℚ) / (h : ℚ)) →
      (resize_aspect img_width img_height (FixSize.px w h)).2 = h ∧
      0 ≤ (resize_aspect img_width img_height (FixSize.px w h)).1 ∧
      (resize_aspect img_width img_height (FixSize.px w h)).1 ≤ w ∧
      |(((resize_aspect img_width img_height (FixSize.px w h)).1 : ℤ) : ℚ) -
        (h : ℚ) * (img_width : ℚ) / (img_height : ℚ)| ≤ 1 / 2) := by
  have hw0 : (0 : ℚ) < (w : ℚ) := by exact_mod_cast hw
  have hh0 : (0 : ℚ) < (h : ℚ) := by exact_mod_cast hh
  have hiw0 : (0 : ℚ) < (img_width : ℚ) := by exact_mod_cast hiw
  have hih0 : (0 : ℚ) < (img_height : ℚ) := by exact_mod_cast hih
  constructor
  · intro hcond
    have hred : resize_aspect img_width img_height (FixSize.px w h) =
        (rustRound (w : ℚ), rustRound ((h : ℚ) * ((w : ℚ) / (h : ℚ)) /
          ((img_width : ℚ) / (img_height : ℚ)))) := by
      unfold resize_aspect
      dsimp only [FixSize.px, Length.pxL]
      split
      · rfl
      · next hc => exact absurd hcond hc
    have hq : (h : ℚ) * ((w : ℚ) / (h : ℚ)) / ((img_width : ℚ) / (img_height : ℚ)) =
        (w : ℚ) * (img_height : ℚ) / (img_width : ℚ) := by
      field_simp
    rw [hred, hq]
    refine ⟨rustRound_intCast w, ?_, ?_, ?_⟩
    · exact rustRound_nonneg _ (by positivity)
    · refine rustRound_le_int _ h ?_
      rw [div_le_iff₀ hiw0]
      have := (div_le_div_iff₀ hh0 hih0).mp hcond
      linarith
    · exact abs_rustRound_sub_le _
  · intro hcond
    have hred : resize_aspect img_width img_height (FixSize.px w h) =
        (rustRound ((w : ℚ) * ((img_width : ℚ) / (img_height : ℚ)) /
          ((w : ℚ) / (h : ℚ))), rustRound (h : ℚ)) := by
      unfold resize_aspect
      dsimp only [FixSize.px, Length.pxL]
      split
      · next hc => exact absurd hc (not_le.mpr hcond)
      · rfl
    have hq : (w : ℚ) * ((img_width : ℚ) / (img_height : ℚ)) / ((w : ℚ) / (h : ℚ)) =
        (h : ℚ) * (img_width : ℚ) / (img_height : ℚ) := by
      field_simp
      ring
    rw [hred, hq]
    refine ⟨rustRound_intCast h, ?_, ?_, ?_⟩
    · exact rustRound_nonneg _ (by positivity)
    · refine rustRound_le_int _ w ?_
      rw [div_le_iff₀ hih0]
      have := (div_le_div_iff₀ hih0 hh0).mp (le_of_lt hcond)
      linarith
    · exact abs_rustRound_sub_le _

/-- Claim C4, witness: fitting the `4000 × 3000` photo into the
`1200 × 800` rectangle (photo relatively taller than the rectangle):
the height is filled exactly, the width stays inside, and the width is
within half a pixel of the exact `800 · 4000 / 3000`. -/
theorem resize_aspect_contain_fit_witness :
    (resize_aspect 4000 3000 (FixSize.px 1200 800)).2 = 800 ∧
    0 ≤ (resize_aspect 4000 3000 (FixSize.px 1200 800)).1 ∧
    (resize_aspect 4000 3000 (FixSize.px 1200 800)).1 ≤ 1200 ∧
    |(((resize_aspect 4000 3000 (FixSize.px 1200 800)).1 : ℤ) : ℚ) -
      ((800 : ℤ) : ℚ) * ((4000 : ℤ) : ℚ) / ((3000 : ℤ) : ℚ)| ≤ 1 / 2 :=
  (resize_aspect_contain_fit 4000 3000 1200 800 (by norm_num) (by norm_num)
    (by norm_num) (by norm_num)).2 (by norm_num)

/-- Claim C4, counterexample: a `16 × 10` photo fitted into a `3 × 2`
rectangle of different ratio yields `(3, 2)` — after rounding the fitted
size equals the rectangle's extent on *both* axes, not exactly one. -/
theorem resize_aspect_touches_both_axes :
    resize_aspect 16 10 (FixSize.px 3 2) = (3, 2) ∧
      (16 : ℚ) / 10 ≠ (3 : ℚ) / 2 := by
  refine ⟨by with_unfolding_all rfl, by norm_num⟩

/-! ### Claim C6: the concrete end-to-end scenario -/

/-- Claim C6 (amended): for the `4000 × 3000` photo, format `15cm/10cm`
at 300 DPI, `image-size 1200px/800px` and `padding 20px`: the
named-format table resolves `15cm/10cm` to `6in/4in`, giving a
`1800 × 1200` canvas; the solved photo size is `1067 × 800`, the framed
size `1107 × 840`; the per-side margins are `(1800 − 1107) / 2 = 346`
horizontally (truncating integer division, not `346.5 → 347`) and `180`
vertically. -/
theorem scenario_end_to_end :
    to_print_format ⟨some ⟨15, .cm⟩, some ⟨10, .cm⟩⟩ =
      some (.ok ⟨some ⟨6, .inch⟩, some ⟨4, .inch⟩⟩) ∧
    scenarioConfig.process_layout 4000 3000 =
      some (.ok (1800, 1200, false,
        (FixSize.px 1067 800, FixSize.px 1107 840, Borders.px 20 20 20 20,
          Borders.px 180 346 180 346))) := by
  refine ⟨by with_unfolding_all rfl, by with_unfolding_all rfl⟩

/-- Claim C6, counterexample: the claimed horizontal margin of `347`
(`346.5` rounded up) is not what the solver produces — the layout with
`347` margins is *not* the solver's output (it yields `346`, by
truncating integer division). -/
theorem scenario_margin_not_347 :
    scenarioConfig.process_layout 4000 3000 ≠
      some (.ok (1800, 1200, false,
        (FixSize.px 1067 800, FixSize.px 1107 840, Borders.px 20 20 20 20,
          Borders.px 180 347 180 347))) := by
  set_option maxRecDepth 10000 in
  set_option synthInstance.maxSize 1000 in
  with_unfolding_all decide

/-! ### Claim C7: identity unit conversion -/

/-- Claim C7 (amended): `Length::to` is the exact identity on a `Length`
already in the target unit for the units `Cm` and `Inch`; for `Px` it
re-rounds the stored value, so it is the identity exactly when the
stored value is integral.  (All `Length`s built through `Length::px`
are integral, but the string parser stores the parsed float unrounded,
so a parsed fractional pixel length is *not* preserved.) -/
theorem to_identity (l : Length) (u : LengthUnit) (dpi : ℚ) (hu : l.unit = u)
    (hint : u = .px → ∃ k : ℤ, l.value = (k : ℚ)) :
    l.to u dpi = l := by
  obtain ⟨v, lu⟩ := l
  subst hu
  cases lu with
  | cm => rfl
  | inch => rfl
  | px =>
    obtain ⟨k, hk⟩ := hint rfl
    subst hk
    show Length.pxL (rustRound ((k : ℤ) : ℚ)) = _
    rw [rustRound_intCast]
    rfl

/-- Claim C7, witness: converting `5cm` to `Cm` at any DPI returns it
unchanged. -/
theorem to_identity_witness : Length.to ⟨5, .cm⟩ .cm 300 = ⟨5, .cm⟩ :=
  to_identity ⟨5, .cm⟩ .cm 300 rfl (fun hpx => absurd hpx (by decide))

/-- Claim C7, counterexample: the parser does not round pixel values on
construction — `"5.5"` parses to a `Px` length with fractional value
`11/2`, and converting it to `Px` rounds it to `6`, so the identity
`convert(L, U, d) = L` fails for this parser-produced length. -/
theorem to_px_rounds_fractional :
    Length.fromStr "5.5" = some (.ok ⟨11 / 2, .px⟩) ∧
    Length.to ⟨11 / 2, .px⟩ .px 300 = ⟨6, .px⟩ ∧
    (11 / 2 : ℚ) ≠ 6 := by
  refine ⟨by with_unfolding_all rfl, by with_unfolding_all rfl, by norm_num⟩

/-! ### Claim C8: length-parsing grammar and totality -/

/-- Claim C8 (amended): length parsing is *not* total — the source
slices the last two *bytes* (`let pos = s.len() - 2;`), so inputs of
fewer than two bytes (such as `"5"`) panic on the underflowing slice,
and inputs whose byte length minus two is not a character boundary
(such as `"€5"`, four bytes ending in a three-byte character) panic on
the byte slicing.  For every input ending in two single-byte
characters, parsing never panics and follows the grammar: when those
two characters are not both alphabetic the unit defaults to `Px` and
the whole string is the numeric portion; when they are both alphabetic
they must be one of the recognized suffixes (`px`, `cm`, `in` — `mm` is
*not* recognized) and the prefix is the numeric portion; the only
failure outcome is a parse error, returned exactly when the numeric
portion is malformed or the suffix is unrecognized. -/
theorem fromStr_grammar_ascii_suffix (s : String) (front : List Char) (c1 c2 : Char)
    (hs : s.data = front ++ [c1, c2])
    (h1 : c1.utf8Size = 1) (h2 : c2.utf8Size = 1) :
    (Length.fromStr s ≠ none) ∧
    ([c1, c2].all Char.isAlpha = false →
      Length.fromStr s =
        (match parseNum s with
         | some v => some (.ok ⟨v, .px⟩)
         | none => some (.error floatErr))) ∧
    (∀ u, [c1, c2].all Char.isAlpha = true →
      LengthUnit.fromStr (String.mk [c1, c2]) = .ok u →
      Length.fromStr s =
        (match parseNum (String.mk front) with
         | some v => some (.ok ⟨v, u⟩)
         | none => some (.error floatErr))) ∧
    (∀ e, [c1, c2].all Char.isAlpha = true →
      LengthUnit.fromStr (String.mk [c1, c2]) = .error e →
      Length.fromStr s = some (.error e)) := by
  obtain ⟨cs⟩ := s
  have hs2 : cs = front ++ [c1, c2] := hs
  subst hs2
  have hnl : ¬(utf8Len (front ++ [c1, c2]) < 2) := by
    rw [utf8Len_append]
    simp [utf8Len, h1, h2]
  have hsp := splitAtByte_at_last_two front c1 c2 h1 h2
  refine ⟨?_, ?_, ?_, ?_⟩
  · unfold Length.fromStr Length.fromStrL
    dsimp only
    rw [if_neg hnl, hsp]
    dsimp only
    split
    · rcases LengthUnit.fromStr (String.mk [c1, c2]) with e | u
      · simp
      · rcases parseNum (String.mk front) with _ | v <;> simp
    · rcases parseNum (String.mk (front ++ [c1, c2])) with _ | v <;> simp
  · intro halpha
    unfold Length.fromStr Length.fromStrL
    dsimp only
    rw [if_neg hnl, hsp]
    dsimp only
    rw [halpha]
    rfl
  · intro u halpha hu
    unfold Length.fromStr Length.fromStrL
    dsimp only
    rw [if_neg hnl, hsp]
    dsimp only
    rw [halpha, if_pos rfl, hu]
  · intro e halpha he
    unfold Length.fromStr Length.fromStrL
    dsimp only
    rw [if_neg hnl, hsp]
    dsimp only
    rw [halpha, if_pos rfl, he]

/-- Claim C8, witness: parsing `"5cm"` succeeds with value `5` and unit
`Cm` via the grammar theorem. -/
theorem fromStr_grammar_witness : Length.fromStr "5cm" = some (.ok ⟨5, .cm⟩) := by
  have h := (fromStr_grammar_ascii_suffix "5cm" ['5'] 'c' 'm' (by decide) (by decide)
    (by decide)).2.2.1 LengthUnit.cm (by decide) (by with_unfolding_all rfl)
  rw [h]
  with_unfolding_all rfl

/-- Claim C8, counterexample: the single-character input `"5"` panics
(the byte-suffix slicing underflows) instead of parsing as `5` pixels;
the two-character input `"€5"` panics as well, because its byte length
minus two lands inside the three-byte `€` (not a character boundary);
and `"5mm"` is rejected because `mm` is not among the recognized unit
suffixes — all contradicting the claimed grammar and totality. -/
theorem fromStr_panics_on_short_and_rejects_mm :
    Length.fromStr "5" = none ∧
    Length.fromStr "€5" = none ∧
    Length.fromStr "5mm" =
      some (.error "`mm` is not a valid length unit. Must be one of `(px|cm|in)`") := by
  refine ⟨by with_unfolding_all rfl, by with_unfolding_all rfl, by with_unfolding_all rfl⟩

/-! ### Claim C9: named print-format resolution -/

/-- Every replacement string in the named-format table parses to a
`Size` without error or panic. -/
theorem create_formats_values_parse :
    ∀ kv ∈ create_formats, ∃ r, Size.fromStr kv.2 = some (.ok r) := by
  intro kv hkv
  fin_cases hkv <;> exact ⟨_, by with_unfolding_all rfl⟩

/-- Claim C9: `to_print_format` fails exactly when the input `Size` is
missing its width or its height; otherwise, when the exact display
string `"width/height"` is a key of the named-format table the parsed
replacement is returned, and when it is not a key the input is returned
unchanged (the lookup is exact-string). -/
theorem to_print_format_exact_lookup (s : Size) :
    ((∃ e, to_print_format s = some (.error e)) ↔ (s.width = none ∨ s.height = none)) ∧
    (∀ rep, ¬(s.width = none ∨ s.height = none) → formatsGet s.display = some rep →
      ∃ r, Size.fromStr rep = some (.ok r) ∧ to_print_format s = some (.ok r)) ∧
    (¬(s.width = none ∨ s.height = none) → formatsGet s.display = none →
      to_print_format s = some (.ok s)) := by
  by_cases hm : s.width = none ∨ s.height = none
  · have he : to_print_format s = some (.error
        ("Unable to determine print size. Missing dimension in size " ++ s.display)) := by
      unfold to_print_format
      rw [if_pos hm]
    exact ⟨⟨fun _ => hm, fun _ => ⟨_, he⟩⟩, fun rep hnm => absurd hm hnm,
      fun hnm => absurd hm hnm⟩
  · cases hlook : formatsGet s.display with
    | none =>
      have he : to_print_format s = some (.ok s) := by
        unfold to_print_format
        rw [if_neg hm, hlook]
      refine ⟨⟨?_, fun habs => absurd habs hm⟩, ?_, fun _ _ => he⟩
      · rintro ⟨e, hee⟩
        rw [he] at hee
        exact absurd hee (by simp)
      · intro rep _ hr
        exact absurd hr (by simp)
    | some rep0 =>
      have hmem : ∃ kv ∈ create_formats, kv.2 = rep0 := by
        unfold formatsGet at hlook
        cases hf : create_formats.find? (fun kv => kv.1 = s.display) with
        | none =>
          rw [hf] at hlook
          exact absurd hlook (by simp)
        | some kv =>
          rw [hf] at hlook
          simp only [Option.map_some', Option.some.injEq] at hlook
          exact ⟨kv, List.mem_of_find?_eq_some hf, hlook⟩
      obtain ⟨kv, hkv, hrep⟩ := hmem
      obtain ⟨r, hr⟩ := create_formats_values_parse kv hkv
      rw [hrep] at hr
      have he : to_print_format s = some (.ok r) := by
        unfold to_print_format
        rw [if_neg hm, hlook]
        dsimp only
        rw [hr]
      refine ⟨⟨?_, fun habs => absurd habs hm⟩, ?_, ?_⟩
      · rintro ⟨e, hee⟩
        rw [he] at hee
        exact absurd hee (by simp)
      · intro rep _ hr2
        simp only [Option.some.injEq] at hr2
        exact ⟨r, hr2 ▸ hr, he⟩
      · intro _ hr2
        exact absurd hr2 (by simp)

/-- Claim C9, witness: `7cm/7cm` is not a key of the table, so
`to_print_format` returns the size unchanged; and both dimensions being
present, no error is raised. -/
theorem to_print_format_exact_lookup_witness :
    to_print_format ⟨some ⟨7, .cm⟩, some ⟨7, .cm⟩⟩ =
      some (.ok ⟨some ⟨7, .cm⟩, some ⟨7, .cm⟩⟩) :=
  (to_print_format_exact_lookup ⟨some ⟨7, .cm⟩, some ⟨7, .cm⟩⟩).2.2 (by simp)
    (by with_unfolding_all rfl)

end PrintPrep
